import Mathlib

/-!
Verification of the card-memory measurement core of `get_app_storage`
(`src/main.py`): the APDU decode in `get_memory`, its bounded retry loop,
`get_card_uid`, and the storage-delta computation of the main loop.

Machine bytes are modelled as `Nat`, Python list slices as take/drop,
`int.from_bytes(_, "big")` as a base-256 fold, and Python float division
as exact rational division (no claim here depends on rounding).  A raised
`ZeroDivisionError` is modelled as an `Except.error` that `get_memory`
does not catch.
-/

namespace GetAppStorage

/-- `int.from_bytes(bs, "big")`: big-endian interpretation of a byte list. -/
def fromBytesBE (bs : List Nat) : Nat :=
  bs.foldl (fun acc b => acc * 256 + b) 0

/-- Python slice `data[a:b]` for `0 ≤ a ≤ b`: elements at indices `a, …, b-1`,
silently truncated at the end of the list. -/
def pySlice (data : List Nat) (a b : Nat) : List Nat :=
  (data.take b).drop a

/-- The dict returned by `get_memory` on the `90 00` branch
(src/main.py lines 327-341).  `persistent_used` is the derived field
`total - free` (a Python int, possibly negative, hence `Int`);
the two percentage fields are floats, modelled as exact rationals. -/
structure MemorySnapshot where
  persistent_free : Nat
  persistent_total : Nat
  persistent_used : Int
  persistent_percent_free : ℚ
  transient_reset_free : Nat
  transient_deselect_free : Nat
  transient_percent_free : ℚ
deriving DecidableEq, Repr

/-- The one error the `90 00` decode branch can raise: `ZeroDivisionError`
from `memory_persistent / memory_persistent_total` (src/main.py line 316). -/
inductive DecodeErr where
  | zeroDivision
deriving DecidableEq, Repr

/-- The decode performed inside `get_memory` when `sw1 == 0x90 and sw2 == 0x00`
(src/main.py lines 311-341), byte for byte:
`memory_persistent = int.from_bytes(data[0:4], "big")`,
`memory_persistent_total = int.from_bytes(data[5:7], "big")`,
`memory_persistent_percentage = min(0.99, persistent / total)` (raises
`ZeroDivisionError` when the total is zero),
`memory_transient_reset = int.from_bytes(data[8:10], "big")`,
`memory_transient_deselect = int.from_bytes(data[10:12], "big")`,
`memory_transient_free = min(1.0, ((reset + deselect) / 2.0) / 4096.0)`. -/
def decode_memory_response (data : List Nat) : Except DecodeErr MemorySnapshot :=
  let memory_persistent := fromBytesBE (pySlice data 0 4)
  let memory_persistent_total := fromBytesBE (pySlice data 5 7)
  if memory_persistent_total = 0 then
    .error .zeroDivision
  else
    let memory_persistent_percentage : ℚ :=
      min (99 / 100 : ℚ) ((memory_persistent : ℚ) / (memory_persistent_total : ℚ))
    let memory_transient_reset := fromBytesBE (pySlice data 8 10)
    let memory_transient_deselect := fromBytesBE (pySlice data 10 12)
    let memory_transient_free : ℚ :=
      min (1 : ℚ)
        (((memory_transient_reset + memory_transient_deselect : ℚ) / 2) / 4096)
    .ok
      { persistent_free := memory_persistent
        persistent_total := memory_persistent_total
        persistent_used := (memory_persistent_total : Int) - (memory_persistent : Int)
        persistent_percent_free := memory_persistent_percentage
        transient_reset_free := memory_transient_reset
        transient_deselect_free := memory_transient_deselect
        transient_percent_free := memory_transient_free }

/-- Outcome of one `connection.transmit` of the memory-applet SELECT, as seen
by `get_memory`: either a `CardConnectionException`/`NoCardException`, or a
response payload with its status word. -/
inductive TransmitResult where
  | connLost
  | ok (data : List Nat) (sw1 sw2 : Nat)
deriving DecidableEq, Repr

/-- What one call of `get_memory` can produce: the memory dict, `-1`
(applet not installed), Python `None` (the implicit fall-through return and
the exhausted-retry return), or an uncaught `ZeroDivisionError` escaping the
function. -/
inductive MemResult where
  | snapshot (s : MemorySnapshot)
  | notInstalled
  | nothing
  | raisedZeroDiv
deriving DecidableEq, Repr

/-- `true` iff the result is the memory dict. -/
def MemResult.isSnapshot : MemResult → Bool
  | .snapshot _ => true
  | _ => false

/-- Observables of one `get_memory` call: its returned value, the number of
transmit attempts made, and how many connections were certainly opened
(transmit returned) versus explicitly disconnected. -/
structure RunStats where
  result : MemResult
  attempts : Nat
  opened : Nat
  closed : Nat
deriving DecidableEq, Repr

/-- The body of `get_memory(reader, retry)` (src/main.py lines 262-352) over a
transport stub giving the outcome of the transmit on each attempt (attempt
number = the `retry` argument of the recursive call).  The `fuel` argument
only makes the recursion structural; the source guard `if retry > 10` stops
the recursion strictly before any fuel of at least `12 - retry` runs out
(see `get_memory_go_fuel_irrelevant`).

Branches, in source order: on exception, `retry > 10` returns `None`, else
sleep and recurse with `retry + 1`; on status `90 00` decode and
`connection.disconnect()` then return the dict (a `ZeroDivisionError` in the
decode escapes before the disconnect); on status `6A 82` return `-1`
(before any disconnect); any other status falls through to
`connection.disconnect()` and the implicit `return None`. -/
def get_memory_go (stub : Nat → TransmitResult) (retry : Nat) : Nat → RunStats
  | 0 => ⟨.nothing, 0, 0, 0⟩
  | fuel + 1 =>
    match stub retry with
    | .connLost =>
      if retry > 10 then ⟨.nothing, 1, 0, 0⟩
      else
        let rest := get_memory_go stub (retry + 1) fuel
        ⟨rest.result, rest.attempts + 1, rest.opened, rest.closed⟩
    | .ok data sw1 sw2 =>
      if sw1 = 0x90 ∧ sw2 = 0x00 then
        match decode_memory_response data with
        | .ok s => ⟨.snapshot s, 1, 1, 1⟩
        | .error _ => ⟨.raisedZeroDiv, 1, 1, 0⟩
      else if sw1 = 0x6a ∧ sw2 = 0x82 then
        ⟨.notInstalled, 1, 1, 0⟩
      else
        ⟨.nothing, 1, 1, 1⟩

/-- `get_memory(reader, retry)`: at most `12 - retry` frames can run
(`retry` reaching 12 is impossible: the guard fires at 11), so this fuel is
never exhausted. -/
def get_memory_run (stub : Nat → TransmitResult) (retry : Nat) : RunStats :=
  get_memory_go stub retry (12 - retry)

/-- The value `get_memory(reader)` returns (or raises). -/
def get_memory (stub : Nat → TransmitResult) : MemResult :=
  (get_memory_run stub 0).result

/-- The APDU `get_card_uid` transmits: `FF CA 00 00 00`. -/
def GET_UID : List Nat := [0xFF, 0xCA, 0x00, 0x00, 0x00]

/-- Outcome of a transmit as seen by `get_card_uid`: a
`NoCardException`/`CardConnectionException`, or response bytes with status. -/
inductive UidTransmit where
  | err
  | ok (resp : List Nat) (sw1 sw2 : Nat)
deriving DecidableEq, Repr

/-- `get_card_uid(reader)` (src/main.py lines 248-259) with connection
accounting: on `(0x90, 0x00)` it returns the response bytes (the source
renders them with `toHexString`; we keep the bytes), on any other status it
returns `None`, and the two transport exceptions are caught and give `None`.
No path calls `connection.disconnect()`. -/
def get_card_uid_run (transmit : List Nat → UidTransmit) :
    Option (List Nat) × Nat × Nat :=
  match transmit GET_UID with
  | .err => (none, 0, 0)
  | .ok resp sw1 sw2 =>
    if sw1 = 0x90 ∧ sw2 = 0x00 then (some resp, 1, 0) else (none, 1, 0)

/-- The value `get_card_uid(reader)` returns. -/
def get_card_uid (transmit : List Nat → UidTransmit) : Option (List Nat) :=
  (get_card_uid_run transmit).1

/-- The per-app delta computed by the main loop (src/main.py lines 521-533):
`persistent = post["persistent"]["used"] - pre["persistent"]["used"]` and
`transient = (pre reset_free + pre deselect_free) - (post reset_free + post
deselect_free)`. -/
def storage_delta (pre post : MemorySnapshot) : Int × Int :=
  (post.persistent_used - pre.persistent_used,
   ((pre.transient_reset_free : Int) + (pre.transient_deselect_free : Int))
     - ((post.transient_reset_free : Int) + (post.transient_deselect_free : Int)))

/-- A 12-byte response whose two candidate persistent-total encodings differ:
bytes 4..7 are `[9, 0, 2, 0]` while bytes 5..6 are `[0, 2]`. -/
def mismatchData : List Nat := [0, 0, 0, 1, 9, 0, 2, 0, 0, 1, 0, 1]

/-- A well-formed 12-byte response used as a concrete instance throughout:
free = 3, total = 7, transient reset free = 5, deselect free = 6. -/
def okData12 : List Nat := [0, 0, 0, 3, 0, 0, 7, 0, 0, 5, 0, 6]

/-- The snapshot the source decodes from `okData12`. -/
def okSnap12 : MemorySnapshot :=
  ⟨3, 7, 4, 3 / 7, 5, 6, 11 / 8192⟩

/-- A well-formed 12-byte response decoding to small round values. -/
def goodData : List Nat := [0, 0, 0, 1, 0, 0, 2, 0, 0, 1, 0, 1]

/-- The snapshot the source decodes from `goodData`. -/
def goodSnap : MemorySnapshot :=
  ⟨1, 2, 1, 1 / 2, 1, 1, 1 / 4096⟩

/-- A transport stub that fails transiently on the first 10 attempts and then
answers `goodData` with status `90 00`. -/
def tenFailStub : Nat → TransmitResult := fun i =>
  if i < 10 then .connLost else .ok goodData 0x90 0x00

/-- A transport stub that fails transiently on the first 3 attempts and then
answers `goodData` with status `90 00`. -/
def threeFailStub : Nat → TransmitResult := fun i =>
  if i < 3 then .connLost else .ok goodData 0x90 0x00

/-- A transport stub that answers a 7-byte payload with status `90 00`. -/
def shortOkStub : Nat → TransmitResult := fun _ =>
  .ok [0, 0, 0, 5, 0, 0, 10] 0x90 0x00

/-- The snapshots of the end-to-end scenario of the spec, percent fields as
the source would derive them. -/
def preScenario : MemorySnapshot :=
  ⟨1000, 2000, 1000, 1 / 2, 200, 100, 75 / 2048⟩

/-- Post-install snapshot of the end-to-end scenario. -/
def postScenario : MemorySnapshot :=
  ⟨950, 2000, 1050, 19 / 40, 150, 100, 125 / 4096⟩

/-! ## Helper lemmas -/

/-- Step of the retry loop: connection lost within the bound sleeps and
recurses with `retry + 1`, adding one transmit attempt. -/
theorem get_memory_go_connLost (stub : Nat → TransmitResult) (retry fuel : Nat)
    (hst : stub retry = .connLost) (hr : ¬ retry > 10) :
    get_memory_go stub retry (fuel + 1)
      = ⟨(get_memory_go stub (retry + 1) fuel).result,
         (get_memory_go stub (retry + 1) fuel).attempts + 1,
         (get_memory_go stub (retry + 1) fuel).opened,
         (get_memory_go stub (retry + 1) fuel).closed⟩ := by
  simp [get_memory_go, hst, hr]

/-- Step of the retry loop: connection lost past the bound prints the
exception and returns `None`. -/
theorem get_memory_go_connLost_exhausted (stub : Nat → TransmitResult)
    (retry fuel : Nat) (hst : stub retry = .connLost) (hr : retry > 10) :
    get_memory_go stub retry (fuel + 1) = ⟨.nothing, 1, 0, 0⟩ := by
  simp [get_memory_go, hst, hr]

/-- Step of the loop when the transmit returns: the status word alone picks
the branch, exactly as in the source. -/
theorem get_memory_go_ok (stub : Nat → TransmitResult) (retry fuel : Nat)
    (data : List Nat) (sw1 sw2 : Nat) (hst : stub retry = .ok data sw1 sw2) :
    get_memory_go stub retry (fuel + 1)
      = if sw1 = 0x90 ∧ sw2 = 0x00 then
          match decode_memory_response data with
          | .ok s => ⟨.snapshot s, 1, 1, 1⟩
          | .error _ => ⟨.raisedZeroDiv, 1, 1, 0⟩
        else if sw1 = 0x6a ∧ sw2 = 0x82 then ⟨.notInstalled, 1, 1, 0⟩
        else ⟨.nothing, 1, 1, 1⟩ := by
  simp [get_memory_go, hst]

/-- The structural fuel of `get_memory_go` is invisible: any two fuels larger
than the frames the source guard `retry > 10` allows give the same run, so
the fuel-exhausted branch is unreachable from `get_memory_run`. -/
theorem get_memory_go_fuel_irrelevant (stub : Nat → TransmitResult) :
    ∀ f₁ f₂ retry, 11 - retry < f₁ → 11 - retry < f₂ →
      get_memory_go stub retry f₁ = get_memory_go stub retry f₂ := by
  intro f₁
  induction f₁ with
  | zero => intro f₂ retry h₁ _; omega
  | succ f ih =>
    intro f₂ retry h₁ h₂
    match f₂, h₂ with
    | g + 1, h₂ =>
      cases hst : stub retry with
      | connLost =>
        by_cases hr : retry > 10
        · rw [get_memory_go_connLost_exhausted stub retry f hst hr,
              get_memory_go_connLost_exhausted stub retry g hst hr]
        · rw [get_memory_go_connLost stub retry f hst hr,
              get_memory_go_connLost stub retry g hst hr,
              ih g (retry + 1) (by omega) (by omega)]
      | ok data sw1 sw2 =>
        rw [get_memory_go_ok stub retry f data sw1 sw2 hst,
            get_memory_go_ok stub retry g data sw1 sw2 hst]

/-- If the stub loses the connection on attempts `r, …, r+k-1` (all within the
retry bound), the run from retry `r` produces the result of the run from
retry `r + k`, with `k` extra transmit attempts. -/
theorem get_memory_go_skip_failures (stub : Nat → TransmitResult) :
    ∀ k r fuel, r + k ≤ 11 →
      (∀ i, r ≤ i → i < r + k → stub i = .connLost) →
      (get_memory_go stub r (k + (fuel + 1))).result
          = (get_memory_go stub (r + k) (fuel + 1)).result
        ∧ (get_memory_go stub r (k + (fuel + 1))).attempts
          = k + (get_memory_go stub (r + k) (fuel + 1)).attempts := by
  intro k
  induction k with
  | zero => intro r fuel _ _; simp
  | succ k ih =>
    intro r fuel hb hf
    have hr : stub r = .connLost := hf r le_rfl (by omega)
    have hkk : (k + 1) + (fuel + 1) = (k + (fuel + 1)) + 1 := by omega
    have hret : ¬ r > 10 := by omega
    rw [hkk, get_memory_go_connLost stub r (k + (fuel + 1)) hr hret]
    have ihr := ih (r + 1) fuel (by omega)
      (fun i h₁ h₂ => hf i (by omega) (by omega))
    have hrk : r + 1 + k = r + (k + 1) := by omega
    rw [hrk] at ihr
    refine ⟨ihr.1, ?_⟩
    have h2 := ihr.2
    dsimp only
    omega

/-- `get_memory_run` from retry 0 runs `get_memory_go` with fuel 12. -/
theorem get_memory_run_zero (stub : Nat → TransmitResult) :
    get_memory_run stub 0 = get_memory_go stub 0 (11 + 1) := rfl

/-- The `90 00` decode raises `ZeroDivisionError` exactly when the two bytes
`data[5:7]` read as zero. -/
theorem decode_zero_iff (data : List Nat) :
    decode_memory_response data = .error .zeroDivision
      ↔ fromBytesBE (pySlice data 5 7) = 0 := by
  unfold decode_memory_response
  by_cases h : fromBytesBE (pySlice data 5 7) = 0 <;> simp [h]

/-- Status `90 00`: the run is decided by the decode alone. -/
theorem get_memory_go_ok_success (stub : Nat → TransmitResult) (retry fuel : Nat)
    (data : List Nat) (hst : stub retry = .ok data 0x90 0x00) :
    get_memory_go stub retry (fuel + 1)
      = match decode_memory_response data with
        | .ok s => ⟨.snapshot s, 1, 1, 1⟩
        | .error _ => ⟨.raisedZeroDiv, 1, 1, 0⟩ := by
  rw [get_memory_go_ok stub retry fuel data 0x90 0x00 hst]
  rfl

/-- Status `6A 82`: the run returns `-1` at once, leaving the connection
open. -/
theorem get_memory_go_ok_6a82 (stub : Nat → TransmitResult) (retry fuel : Nat)
    (data : List Nat) (hst : stub retry = .ok data 0x6a 0x82) :
    get_memory_go stub retry (fuel + 1) = ⟨.notInstalled, 1, 1, 0⟩ := by
  rw [get_memory_go_ok stub retry fuel data 0x6a 0x82 hst]
  rfl

/-- Any other status: disconnect and fall through to the implicit `None`. -/
theorem get_memory_go_ok_other (stub : Nat → TransmitResult) (retry fuel : Nat)
    (data : List Nat) (sw1 sw2 : Nat) (hst : stub retry = .ok data sw1 sw2)
    (h90 : ¬(sw1 = 0x90 ∧ sw2 = 0x00)) (h6a : ¬(sw1 = 0x6a ∧ sw2 = 0x82)) :
    get_memory_go stub retry (fuel + 1) = ⟨.nothing, 1, 1, 1⟩ := by
  rw [get_memory_go_ok stub retry fuel data sw1 sw2 hst, if_neg h90, if_neg h6a]

/-- A full `get_memory` call whose first `k ≤ 11` attempts lose the connection
continues at attempt `k` with `k` attempts already spent. -/
theorem get_memory_run_after_failures (stub : Nat → TransmitResult) (k : Nat)
    (hk : k ≤ 11) (hf : ∀ i, i < k → stub i = .connLost) :
    (get_memory_run stub 0).result = (get_memory_go stub k ((11 - k) + 1)).result
      ∧ (get_memory_run stub 0).attempts
          = k + (get_memory_go stub k ((11 - k) + 1)).attempts := by
  have h := get_memory_go_skip_failures stub k 0 (11 - k) (by omega)
    (fun i h₁ h₂ => hf i (by omega))
  have h12 : k + ((11 - k) + 1) = 12 := by omega
  rw [h12, Nat.zero_add] at h
  simpa [get_memory_run] using h

/-- Decode of the concrete response `okData12`, evaluated. -/
theorem decode_okData12 : decode_memory_response okData12 = .ok okSnap12 := by
  norm_num [decode_memory_response, okData12, okSnap12, fromBytesBE, pySlice]

/-- Decode of the concrete response `goodData`, evaluated. -/
theorem decode_goodData : decode_memory_response goodData = .ok goodSnap := by
  norm_num [decode_memory_response, goodData, goodSnap, fromBytesBE, pySlice]

/-- Decode of the 7-byte response `[0,0,0,5,0,0,10]`, evaluated: the missing
transient bytes read as zero. -/
theorem decode_shortOk :
    decode_memory_response [0, 0, 0, 5, 0, 0, 10]
      = .ok ⟨5, 10, 5, 1 / 2, 0, 0, 0⟩ := by
  norm_num [decode_memory_response, fromBytesBE, pySlice]

/-! ## The claims -/

/-- Claim C1 (amended): for a successful (status `90 00`) memory-applet
response of at least 12 bytes that the decode accepts, `persistent_free`
comes from bytes 0:4 big-endian, `persistent_total` from bytes 5:7
big-endian (two bytes — not from bytes 4:8 as claimed),
`transient_reset_free` from bytes 8:10 and `transient_deselect_free` from
bytes 10:12. -/
theorem C1_decode_fields (data : List Nat) (s : MemorySnapshot)
    (_hlen : 12 ≤ data.length)
    (h : decode_memory_response data = .ok s) :
    s.persistent_free = fromBytesBE (pySlice data 0 4)
      ∧ s.persistent_total = fromBytesBE (pySlice data 5 7)
      ∧ s.transient_reset_free = fromBytesBE (pySlice data 8 10)
      ∧ s.transient_deselect_free = fromBytesBE (pySlice data 10 12) := by
  have hz : fromBytesBE (pySlice data 5 7) ≠ 0 := by
    intro hz
    rw [(decode_zero_iff data).mpr hz] at h
    exact absurd h (by simp)
  simp only [decode_memory_response, if_neg hz, Except.ok.injEq] at h
  subst h
  exact ⟨rfl, rfl, rfl, rfl⟩

/-- Claim C1, witness: the amended field map evaluated on `okData12`. -/
theorem C1_decode_fields_witness :
    okSnap12.persistent_free = fromBytesBE (pySlice okData12 0 4)
      ∧ okSnap12.persistent_total = fromBytesBE (pySlice okData12 5 7)
      ∧ okSnap12.transient_reset_free = fromBytesBE (pySlice okData12 8 10)
      ∧ okSnap12.transient_deselect_free = fromBytesBE (pySlice okData12 10 12) :=
  C1_decode_fields okData12 okSnap12 (by decide) decode_okData12

/-- Claim C1, counterexample: on the 12-byte response `mismatchData` the
decode yields `persistent_total = 2` (bytes 5:7) whereas bytes 4:8 big-endian
read `150995456`, so the claimed `bytes[4:8]` layout is not what the code
computes. -/
theorem C1_total_field_counterexample :
    (mismatchData.length = 12
        ∧ (decode_memory_response mismatchData).toOption.map
            MemorySnapshot.persistent_total = some 2)
      ∧ fromBytesBE (pySlice mismatchData 4 8) = 150995456 := by decide

/-- Claim C2 (amended): a stub that loses the connection on exactly `k < 12`
attempts and then answers `90 00` with a decodable payload gives a snapshot
after `k + 1` transmit attempts; a stub that fails on 12 consecutive
attempts yields `None` after exactly 12 attempts — so the loop tolerates 11
failures, not 9, and the 12th attempt is made. -/
theorem C2_retry_bound (stub : Nat → TransmitResult) :
    (∀ k data s, k < 12 → (∀ i, i < k → stub i = .connLost)
        → stub k = .ok data 0x90 0x00 → decode_memory_response data = .ok s
        → (get_memory_run stub 0).result = .snapshot s
          ∧ (get_memory_run stub 0).attempts = k + 1)
      ∧ ((∀ i, i < 12 → stub i = .connLost)
        → (get_memory_run stub 0).result = .nothing
          ∧ (get_memory_run stub 0).attempts = 12) := by
  constructor
  · intro k data s hk hf hs hd
    have h := get_memory_run_after_failures stub k (by omega) hf
    rw [get_memory_go_ok_success stub k (11 - k) data hs, hd] at h
    exact ⟨h.1, by have h2 := h.2; dsimp only at h2; omega⟩
  · intro hf
    have h := get_memory_run_after_failures stub 11 (by omega)
      (fun i hi => hf i (by omega))
    rw [get_memory_go_connLost_exhausted stub 11 (11 - 11) (hf 11 (by omega))
      (by omega)] at h
    exact ⟨h.1, by have h2 := h.2; dsimp only at h2; omega⟩

/-- Claim C2, witness: three transient failures then success give the decoded
snapshot on the fourth attempt. -/
theorem C2_retry_bound_witness :
    (get_memory_run threeFailStub 0).result = .snapshot goodSnap
      ∧ (get_memory_run threeFailStub 0).attempts = 3 + 1 :=
  (C2_retry_bound threeFailStub).1 3 goodData goodSnap (by decide) (by decide)
    rfl decode_goodData

/-- Claim C2, counterexample: a stub failing on the first 10 attempts — 10
consecutive transient failures — then succeeding returns a snapshot on
attempt 11 (the claim demands `FatalFailure`), and a stub that always fails
is given a 12th attempt (the claim forbids one). -/
theorem C2_ten_failures_counterexample :
    ((get_memory_run tenFailStub 0).result = .snapshot goodSnap
        ∧ (get_memory_run tenFailStub 0).attempts = 11)
      ∧ (get_memory_run (fun _ => TransmitResult.connLost) 0).attempts = 12 := by
  refine ⟨?_, ?_⟩
  · have h := get_memory_run_after_failures tenFailStub 10 (by omega) (by decide)
    rw [get_memory_go_ok_success tenFailStub 10 (11 - 10) goodData rfl,
      decode_goodData] at h
    refine ⟨h.1, ?_⟩
    have h2 := h.2
    dsimp only at h2
    omega
  · have h := get_memory_run_after_failures (fun _ => TransmitResult.connLost) 11
      (by omega) (fun i _ => rfl)
    rw [get_memory_go_connLost_exhausted (fun _ => TransmitResult.connLost) 11
      (11 - 11) rfl (by omega)] at h
    have h2 := h.2
    dsimp only at h2
    omega

/-- Claim C3: the per-app delta is `post.persistent_used −
pre.persistent_used` persistently and `(pre reset + pre deselect) − (post
reset + post deselect)` transiently; on the spec scenario (pre free 1000 of
2000, reset 200, deselect 100; post free 950 of 2000, reset 150, deselect
100; the code applies no correction) it is `(50, 50)`. -/
theorem C3_storage_delta :
    (∀ pre post : MemorySnapshot,
        storage_delta pre post
          = (post.persistent_used - pre.persistent_used,
             ((pre.transient_reset_free : Int) + (pre.transient_deselect_free : Int))
               - ((post.transient_reset_free : Int)
                 + (post.transient_deselect_free : Int))))
      ∧ storage_delta preScenario postScenario = (50, 50) :=
  ⟨fun _ _ => rfl, by decide⟩

/-- Claim C4 (amended): whenever the two bytes `data[5:7]` read as zero —
which happens for every response shorter than 6 bytes (not 7: a 6-byte
response still supplies byte 5) — the decode raises `ZeroDivisionError`
instead of producing any outcome. -/
theorem C4_zero_total_division (data : List Nat) :
    (data.length < 6 → fromBytesBE (pySlice data 5 7) = 0)
      ∧ (fromBytesBE (pySlice data 5 7) = 0
        → decode_memory_response data = .error .zeroDivision) := by
  constructor
  · intro hlen
    have hnil : pySlice data 5 7 = [] := by
      unfold pySlice
      have h7 : (data.take 7).length ≤ 5 := by
        rw [List.length_take]; omega
      exact List.drop_eq_nil_of_le h7
    rw [hnil]; rfl
  · exact (decode_zero_iff data).mpr

/-- Claim C4, witness: a 3-byte response has zero `data[5:7]` and the decode
raises. -/
theorem C4_zero_total_division_witness :
    fromBytesBE (pySlice [1, 2, 3] 5 7) = 0
      ∧ decode_memory_response [1, 2, 3] = .error .zeroDivision := by
  have h := C4_zero_total_division [1, 2, 3]
  exact ⟨h.1 (by decide), h.2 (h.1 (by decide))⟩

/-- Claim C4, counterexample: the 6-byte response `[0,0,0,0,0,1]` is shorter
than 7 bytes, yet `data[5:7]` reads 1 (not zero) and the decode succeeds, so
"every response shorter than 7 bytes" divides by zero is false. -/
theorem C4_six_byte_counterexample :
    (([0, 0, 0, 0, 0, 1] : List Nat).length < 7
        ∧ fromBytesBE (pySlice [0, 0, 0, 0, 0, 1] 5 7) = 1)
      ∧ (decode_memory_response [0, 0, 0, 0, 0, 1]).toOption.map
          MemorySnapshot.persistent_total = some 1 := by decide

/-- Claim C5: a memory-applet SELECT exchange answered with status `6A 82` —
after any number of tolerated transient failures and whatever the payload —
makes `get_memory` return `NotInstalled`, never a decode error. -/
theorem C5_not_installed (stub : Nat → TransmitResult) (k : Nat) (data : List Nat)
    (hk : k ≤ 11) (hf : ∀ i, i < k → stub i = .connLost)
    (hs : stub k = .ok data 0x6a 0x82) :
    get_memory stub = .notInstalled ∧ get_memory stub ≠ .raisedZeroDiv := by
  have h := (get_memory_run_after_failures stub k hk hf).1
  rw [get_memory_go_ok_6a82 stub k (11 - k) data hs] at h
  have hg : get_memory stub = .notInstalled := h
  rw [hg]
  exact ⟨rfl, by simp⟩

/-- Claim C5, witness: status `6A 82` with payload `[1, 2, 3]` on the first
attempt gives `NotInstalled`. -/
theorem C5_not_installed_witness :
    get_memory (fun _ => TransmitResult.ok [1, 2, 3] 0x6a 0x82) = .notInstalled
      ∧ get_memory (fun _ => TransmitResult.ok [1, 2, 3] 0x6a 0x82)
          ≠ .raisedZeroDiv :=
  C5_not_installed (fun _ => TransmitResult.ok [1, 2, 3] 0x6a 0x82) 0 [1, 2, 3]
    (by decide) (by decide) rfl

/-- Claim C6 (amended): a successful (status `90 00`) response shorter than
12 bytes is not rejected — there is no length check: the slices truncate,
missing fields read as zero, the decode returns a snapshot whenever
`data[5:7]` is nonzero and raises `ZeroDivisionError` when it is zero, and
in neither case is the attempt retried. -/
theorem C6_short_response (stub : Nat → TransmitResult) (data : List Nat)
    (_hlen : data.length < 12) (hs : stub 0 = .ok data 0x90 0x00) :
    ((fromBytesBE (pySlice data 5 7) ≠ 0
        → (get_memory_run stub 0).result.isSnapshot = true)
      ∧ (fromBytesBE (pySlice data 5 7) = 0
        → (get_memory_run stub 0).result = .raisedZeroDiv))
      ∧ (get_memory_run stub 0).attempts = 1 := by
  rw [get_memory_run_zero stub, get_memory_go_ok_success stub 0 11 data hs]
  cases hd : decode_memory_response data with
  | ok s =>
    refine ⟨⟨fun _ => rfl, fun hz => ?_⟩, rfl⟩
    rw [(decode_zero_iff data).mpr hz] at hd
    exact absurd hd (by simp)
  | error e =>
    cases e
    exact ⟨⟨fun hnz => absurd ((decode_zero_iff data).mp hd) hnz, fun _ => rfl⟩,
      rfl⟩

/-- Claim C6, witness: the 7-byte response `[0,0,0,5,0,0,10]` is decoded to a
snapshot in a single attempt. -/
theorem C6_short_response_witness :
    (get_memory_run shortOkStub 0).result.isSnapshot = true
      ∧ (get_memory_run shortOkStub 0).attempts = 1 := by
  have h := C6_short_response shortOkStub [0, 0, 0, 5, 0, 0, 10] (by decide)
    (by decide)
  exact ⟨h.1.1 (by decide), h.2⟩

/-- Claim C6, counterexample: the 7-byte successful response
`[0,0,0,5,0,0,10]` does not fail at all — `get_memory` returns the dict
`free 5, total 10, used 5` with the missing transient bytes read as zero. -/
theorem C6_no_length_check_counterexample :
    (([0, 0, 0, 5, 0, 0, 10] : List Nat).length < 12)
      ∧ (get_memory_run shortOkStub 0).result
          = .snapshot ⟨5, 10, 5, 1 / 2, 0, 0, 0⟩ := by
  refine ⟨by decide, ?_⟩
  rw [get_memory_run_zero shortOkStub,
    get_memory_go_ok_success shortOkStub 0 11 [0, 0, 0, 5, 0, 0, 10] rfl,
    decode_shortOk]

/-- Claim C7: every snapshot the decode produces satisfies
`persistent_used + persistent_free = persistent_total`, since the derived
field is computed as `total − free`. -/
theorem C7_used_plus_free (data : List Nat) (s : MemorySnapshot)
    (h : decode_memory_response data = .ok s) :
    s.persistent_used + (s.persistent_free : Int) = (s.persistent_total : Int) := by
  have hz : fromBytesBE (pySlice data 5 7) ≠ 0 := by
    intro hz
    rw [(decode_zero_iff data).mpr hz] at h
    exact absurd h (by simp)
  simp only [decode_memory_response, if_neg hz, Except.ok.injEq] at h
  subst h
  dsimp only
  omega

/-- Claim C7, witness: the invariant on the snapshot decoded from
`okData12`. -/
theorem C7_used_plus_free_witness :
    okSnap12.persistent_used + (okSnap12.persistent_free : Int)
      = (okSnap12.persistent_total : Int) :=
  C7_used_plus_free okData12 okSnap12 decode_okData12

/-- Claim C8 (code bug): on the `6A 82` early return of `get_memory` the
connection opened for the exchange is never disconnected (the `return -1`
precedes the `connection.disconnect()` line), and `get_card_uid` never
disconnects on any path, including its successful one — against the claim
that every exit path releases the connection. -/
theorem C8_connection_leak :
    ((get_memory_run (fun _ => TransmitResult.ok [] 0x6a 0x82) 0).result
          = .notInstalled
        ∧ (get_memory_run (fun _ => TransmitResult.ok [] 0x6a 0x82) 0).opened = 1
        ∧ (get_memory_run (fun _ => TransmitResult.ok [] 0x6a 0x82) 0).closed = 0)
      ∧ get_card_uid_run (fun _ => UidTransmit.ok [4, 2] 0x90 0x00)
          = (some [4, 2], 1, 0) := by decide

/-- Claim C9: `get_card_uid` transmits `FF CA 00 00 00`; on status `90 00` it
returns the response bytes, on any other status it returns `None`, and a
transport error is caught and also gives `None` — it is total, never
propagating a hard error. -/
theorem C9_read_uid (transmit : List Nat → UidTransmit) :
    GET_UID = [0xFF, 0xCA, 0x00, 0x00, 0x00]
      ∧ (∀ resp sw1 sw2, transmit GET_UID = .ok resp sw1 sw2
          → get_card_uid transmit
              = if sw1 = 0x90 ∧ sw2 = 0x00 then some resp else none)
      ∧ (transmit GET_UID = .err → get_card_uid transmit = none) := by
  refine ⟨rfl, fun resp sw1 sw2 h => ?_, fun h => ?_⟩
  · unfold get_card_uid get_card_uid_run
    rw [h]
    by_cases hc : sw1 = 0x90 ∧ sw2 = 0x00
    · rw [if_pos hc]
      simp [hc]
    · rw [if_neg hc]
      simp [hc]
  · unfold get_card_uid get_card_uid_run
    rw [h]

/-- Claim C9, witness: a `90 00` answer with bytes `[1,2,3,4]` is returned as
the UID. -/
theorem C9_read_uid_witness :
    get_card_uid (fun _ => UidTransmit.ok [1, 2, 3, 4] 0x90 0x00)
      = some [1, 2, 3, 4] := by
  have h := (C9_read_uid (fun _ => UidTransmit.ok [1, 2, 3, 4] 0x90 0x00)).2.1
    [1, 2, 3, 4] 0x90 0x00 rfl
  simpa using h

/-- Claim C10: a first exchange whose status is neither `90 00` nor `6A 82`
makes `get_memory` fall through to `None` in a single attempt — the very
value returned when the retry bound is exhausted, so the two conditions are
indistinguishable to the caller. -/
theorem C10_other_status (stub : Nat → TransmitResult) (data : List Nat)
    (sw1 sw2 : Nat) (hs : stub 0 = .ok data sw1 sw2)
    (h90 : ¬(sw1 = 0x90 ∧ sw2 = 0x00)) (h6a : ¬(sw1 = 0x6a ∧ sw2 = 0x82)) :
    ((get_memory_run stub 0).result = .nothing
        ∧ (get_memory_run stub 0).attempts = 1)
      ∧ (get_memory_run (fun _ => TransmitResult.connLost) 0).result
          = .nothing := by
  rw [get_memory_run_zero stub,
    get_memory_go_ok_other stub 0 11 data sw1 sw2 hs h90 h6a]
  exact ⟨⟨rfl, rfl⟩, by decide⟩

/-- Claim C10, witness: status `64 00` on the first attempt returns `None`
after one attempt, the same value as 12 exhausted transient failures. -/
theorem C10_other_status_witness :
    ((get_memory_run (fun _ => TransmitResult.ok [] 0x64 0x00) 0).result
          = .nothing
        ∧ (get_memory_run (fun _ => TransmitResult.ok [] 0x64 0x00) 0).attempts
          = 1)
      ∧ (get_memory_run (fun _ => TransmitResult.connLost) 0).result
          = .nothing :=
  C10_other_status (fun _ => TransmitResult.ok [] 0x64 0x00) [] 0x64 0x00 rfl
    (by decide) (by decide)

end GetAppStorage
